import Mathlib

/-!
Shallow embedding of the term.everything compositor core: the Chafa frame
composer, the global-registry of protocol singletons, the wl_output bind
handler, the macOS capture session state machine (TypeScript layer, N-API
wrapper layer and native layer) and the capture-once pipeline.  External
library calls (Chafa rendering, CoreGraphics, ScreenCaptureKit) are
abstracted as environment records whose boolean fields encode the
success or failure of each external step, exactly mirroring the branch
structure of the source.
-/

/-! ## Frame composer (ChafaInfo, src/unnamed/part_002) -/

/-- Environment for the Chafa conversion pipeline: success of the two
external allocation calls and the external rendering function
(chafa_canvas_draw_all_pixels followed by chafa_canvas_print). -/
structure ChafaEnv where
  config_ok : Bool
  canvas_ok : Bool
  render : List Nat → Int → Int → Int → Int → String

/-- ChafaInfo::convert_rgba_to_terminal: returns the empty string on a null
data pointer, non-positive pixel dimensions, or failed canvas allocation;
otherwise hands the buffer to the external renderer. -/
def convert_rgba_to_terminal (env : ChafaEnv) (rgba_data : Option (List Nat))
    (width height term_width term_height : Int) : String :=
  match rgba_data with
  | none => ""
  | some data =>
    if width ≤ 0 ∨ height ≤ 0 then ""
    else if env.config_ok = false then ""
    else if env.canvas_ok = false then ""
    else env.render data width height term_width term_height

/-- ChafaInfo::convert_desktop_to_terminal: validates the pointer and all
four dimensions, returning a fixed error string when any check fails,
and otherwise delegates to convert_rgba_to_terminal. -/
def convert_desktop_to_terminal (env : ChafaEnv) (desktop_data : Option (List Nat))
    (desktop_width desktop_height term_width term_height : Int) : String :=
  if desktop_data = none ∨ desktop_width ≤ 0 ∨ desktop_height ≤ 0 ∨
      term_width ≤ 0 ∨ term_height ≤ 0 then
    "Error: Invalid input parameters"
  else
    convert_rgba_to_terminal env desktop_data desktop_width desktop_height
      term_width term_height

/-- A concrete environment used to evaluate the composer at specific
inputs (the rendering function is never reached on the invalid-geometry
paths, so the trivial renderer suffices). -/
def trivial_chafa_env : ChafaEnv :=
  { config_ok := true, canvas_ok := true, render := fun _ _ _ _ _ => "" }

/-! ## Global registry (src/unnamed/part_008) -/

/-- The Global_Ids enumeration: wl_display is 1, wl_compositor is
0xff00000 and the remaining members follow by increment. -/
inductive Global_Ids
  | wl_display
  | wl_compositor
  | wl_subcompositor
  | wl_output
  | wl_seat
  | wl_shm
  | xdg_wm_base
  | wl_data_device_manager
  | wl_keyboard
  | wl_pointer
  | zwp_xwayland_keyboard_grab_manager_v1
  | xwayland_shell_v1
  | wl_data_device
  | wl_touch
  | zxdg_decoration_manager_v1
deriving DecidableEq

/-- Numeric value of each Global_Ids member as assigned by the enum. -/
def Global_Ids.toNat : Global_Ids → Nat
  | .wl_display => 1
  | .wl_compositor => 0xff00000
  | .wl_subcompositor => 0xff00001
  | .wl_output => 0xff00002
  | .wl_seat => 0xff00003
  | .wl_shm => 0xff00004
  | .xdg_wm_base => 0xff00005
  | .wl_data_device_manager => 0xff00006
  | .wl_keyboard => 0xff00007
  | .wl_pointer => 0xff00008
  | .zwp_xwayland_keyboard_grab_manager_v1 => 0xff00009
  | .xwayland_shell_v1 => 0xff0000a
  | .wl_data_device => 0xff0000b
  | .wl_touch => 0xff0000c
  | .zxdg_decoration_manager_v1 => 0xff0000d

/-- The module-level mutable variables backing the lazy getters: one slot
per variable.  The wl_data_device getter has no variable of its own; it
delegates to the wl_seat getter and therefore shares the seat slot. -/
inductive Registry_Slot
  | display
  | output
  | seat
  | shm
  | compositor
  | subcompositor
  | xdgWmBase
  | dataDeviceManager
  | keyboard
  | wlPointer
  | zwpXwaylandKeyboardGrabManager
  | xwaylandShell
  | wlTouch
  | zxdgDecorationManager
deriving DecidableEq

/-- Which module-level variable the getter for a given interface id reads
and writes.  wl_data_device maps to the seat slot (its getter returns
globals at Global_Ids.wl_seat). -/
def backing_slot : Global_Ids → Registry_Slot
  | .wl_display => .display
  | .wl_compositor => .compositor
  | .wl_subcompositor => .subcompositor
  | .wl_output => .output
  | .wl_seat => .seat
  | .wl_shm => .shm
  | .xdg_wm_base => .xdgWmBase
  | .wl_data_device_manager => .dataDeviceManager
  | .wl_keyboard => .keyboard
  | .wl_pointer => .wlPointer
  | .zwp_xwayland_keyboard_grab_manager_v1 => .zwpXwaylandKeyboardGrabManager
  | .xwayland_shell_v1 => .xwaylandShell
  | .wl_data_device => .seat
  | .wl_touch => .wlTouch
  | .zxdg_decoration_manager_v1 => .zxdgDecorationManager

/-- Registry state: the contents of each lazy slot (object instances are
identified by allocation tokens, so reference equality is token
equality) and a fresh-token counter modelling construction of a new
object by the corresponding make function. -/
structure RegistryState where
  slots : Registry_Slot → Option Nat
  nextObj : Nat

/-- One property access on the globals object: if the backing variable is
unset, construct the singleton (allocate a fresh token) and store it;
in every case return the stored instance. -/
def globals_get (st : RegistryState) (g : Global_Ids) : Nat × RegistryState :=
  match st.slots (backing_slot g) with
  | some x => (x, st)
  | none =>
    (st.nextObj,
      { slots := Function.update st.slots (backing_slot g) (some st.nextObj),
        nextObj := st.nextObj + 1 })

/-- The registry state at process start: no singleton constructed yet. -/
def fresh_registry : RegistryState :=
  { slots := fun _ => none, nextObj := 0 }

/-- One advertised-catalog entry. -/
structure AdvertisedGlobal where
  name : String
  id : Nat
  version : Nat
deriving DecidableEq

/-- The advertised_global_objects_names constant, in source order. -/
def advertised_global_objects_names : List AdvertisedGlobal :=
  [ { name := "wl_compositor", id := Global_Ids.toNat .wl_compositor, version := 6 },
    { name := "wl_subcompositor", id := Global_Ids.toNat .wl_subcompositor, version := 1 },
    { name := "wl_output", id := Global_Ids.toNat .wl_output, version := 5 },
    { name := "wl_seat", id := Global_Ids.toNat .wl_seat, version := 10 },
    { name := "wl_shm", id := Global_Ids.toNat .wl_shm, version := 2 },
    { name := "xdg_wm_base", id := Global_Ids.toNat .xdg_wm_base, version := 6 },
    { name := "wl_data_device_manager", id := Global_Ids.toNat .wl_data_device_manager, version := 3 },
    { name := "zxdg_decoration_manager_v1", id := Global_Ids.toNat .zxdg_decoration_manager_v1, version := 1 },
    { name := "zwp_xwayland_keyboard_grab_manager_v1", id := Global_Ids.toNat .zwp_xwayland_keyboard_grab_manager_v1, version := 1 },
    { name := "xwayland_shell_v1", id := Global_Ids.toNat .xwayland_shell_v1, version := 1 } ]

/-- Reading the advertised catalog: the source exports a literal constant
array defined independently of the lazy getters, so the read returns
the constant and performs no registry mutation. -/
def list_advertised (st : RegistryState) : List AdvertisedGlobal × RegistryState :=
  (advertised_global_objects_names, st)

/-! ## wl_output bind handler (src/src/objects/wl_output.ts) -/

/-- The kinds of wl_output events the bind handler sends, identified by
event kind (payloads are the fixed literals and the virtual monitor
size; the ordering claims depend only on the kinds). -/
inductive Wl_Output_Event
  | scale
  | name
  | description
  | geometry
  | mode
  | done
deriving DecidableEq

/-- Modelled from the spec: the generated protocol emitters
(protocols/wayland.xml.ts, absent from the visible sources) each
synchronously send one event on the client connection before returning.
wl_output_on_bind therefore produces, before it returns, exactly the
events of its body in call order: scale, name, description, geometry,
mode, done.  The handler also stores the bound version into the object;
the version argument is kept to mirror the signature. -/
def wl_output_on_bind (version : Int) : List Wl_Output_Event :=
  [ .scale, .name, .description, .geometry, .mode, .done ]

/-! ## Capture session state machine (src/c_interop/src/NODE_API_MODULE.cpp
and MacOSDisplayServer in src/unnamed/part_010) -/

/-- The SCStreamConfiguration fields the code sets and retunes:
dimensions and the frame rate encoded by minimumFrameInterval =
CMTimeMake(1, fps). -/
structure StreamConfig where
  width : Int
  height : Int
  fps : Int
deriving DecidableEq

/-- The native (macos_draw) module-level state: the is_streaming flag,
whether active_stream, capture_queue and stream_callback are set, and
the current stream configuration object if any. -/
structure NativeState where
  is_streaming : Bool
  active_stream : Bool
  capture_queue : Bool
  has_callback : Bool
  stream_config : Option StreamConfig
deriving DecidableEq

/-- Environment for one native start attempt: the macOS version gate, the
permission check, and the outcome of each external ScreenCaptureKit
step (shareable-content fetch including its timeout, main-display
lookup, addStreamOutput, startCapture including its timeout). -/
structure StartEnv where
  os_at_least_12_3 : Bool
  permission_granted : Bool
  shareable_content_ok : Bool
  main_display_found : Bool
  main_display_width : Int
  main_display_height : Int
  add_output_ok : Bool
  start_capture_ok : Bool
deriving DecidableEq

/-- macos_draw::start_desktop_stream.  The already-streaming guard comes
first and returns false without touching any state; later failure
branches return false after the mutations the source has already
performed at that point (stored callback, created queue, assigned
stream_config and active_stream). -/
def native_start (env : StartEnv) (st : NativeState) (width height : Int) :
    Bool × NativeState :=
  if st.is_streaming then (false, st)
  else if env.os_at_least_12_3 = false then (false, st)
  else if env.permission_granted = false then (false, st)
  else
    let st1 : NativeState := { st with has_callback := true, capture_queue := true }
    if env.shareable_content_ok = false then (false, st1)
    else if env.main_display_found = false then (false, st1)
    else
      let cfg : StreamConfig :=
        { width := if 0 < width then width else env.main_display_width,
          height := if 0 < height then height else env.main_display_height,
          fps := 30 }
      let st2 : NativeState := { st1 with stream_config := some cfg, active_stream := true }
      if env.add_output_ok = false then (false, st2)
      else if env.start_capture_ok = false then (false, st2)
      else (true, { st2 with is_streaming := true })

/-- macos_draw::stop_desktop_stream: a no-op unless is_streaming and
active_stream both hold; under the macOS 12.3 gate it tears everything
down unconditionally (timeout and error on stopCapture only log). -/
def native_stop (os_at_least_12_3 : Bool) (st : NativeState) : NativeState :=
  if st.is_streaming = false ∨ st.active_stream = false then st
  else if os_at_least_12_3 then
    { is_streaming := false, active_stream := false, capture_queue := false,
      has_callback := false, stream_config := none }
  else st

/-- macos_draw::is_desktop_streaming. -/
def native_is_streaming (st : NativeState) : Bool :=
  st.is_streaming

/-- The quality-to-frame-rate map of macos_draw::set_stream_quality:
fps = static_cast to int of (3 + quality * 27), which truncates toward
zero; the operand is positive on the guarded range so this is the floor. -/
def quality_to_fps (q : Rat) : Int :=
  Int.floor (3 + q * 27)

/-- macos_draw::set_stream_quality: under the macOS 12.3 gate, and only
when a stream_config exists and the quality lies in [0.1, 1.0], update
minimumFrameInterval to the mapped frame rate; otherwise do nothing. -/
def native_set_stream_quality (os_at_least_12_3 : Bool) (st : NativeState) (q : Rat) :
    NativeState :=
  if os_at_least_12_3 = false then st
  else
    match st.stream_config with
    | none => st
    | some cfg =>
      if (1/10 : Rat) ≤ q ∧ q ≤ 1 then
        { st with stream_config := some { cfg with fps := quality_to_fps q } }
      else st

/-- Combined session state: the MacOSDisplayServer fields (isStreaming,
streamCallback) on top of the N-API wrapper globals
(stream_callback_active, the thread-safe function) and the native
module state. -/
structure SessionState where
  ts_is_streaming : Bool
  ts_has_callback : Bool
  napi_callback_active : Bool
  napi_tsfn : Bool
  native : NativeState
deriving DecidableEq

/-- MacOSDisplayServer.startDesktopStream composed with the
start_desktop_stream_js wrapper: reject immediately when isStreaming;
otherwise store the callback, create the thread-safe function, set the
active flag, run the native start, and roll the wrapper flags and the
stored callback back when the native start fails. -/
def startDesktopStream (env : StartEnv) (st : SessionState) (width height : Int) :
    Bool × SessionState :=
  if st.ts_is_streaming then (false, st)
  else
    let st2 : SessionState :=
      { st with ts_has_callback := true, napi_tsfn := true, napi_callback_active := true }
    let r := native_start env st2.native width height
    if r.1 then
      (true, { st2 with native := r.2, ts_is_streaming := true })
    else
      (false, { st2 with native := r.2, napi_callback_active := false,
                         napi_tsfn := false, ts_has_callback := false })

/-- MacOSDisplayServer.stopDesktopStream composed with the
stop_desktop_stream_js wrapper: return false at once when not
streaming; otherwise run the native stop, clear the wrapper flags (the
wrapper always reports true), then clear isStreaming and the stored
callback and return true. -/
def stopDesktopStream (os_at_least_12_3 : Bool) (st : SessionState) :
    Bool × SessionState :=
  if st.ts_is_streaming = false then (false, st)
  else
    (true,
      { ts_is_streaming := false, ts_has_callback := false,
        napi_callback_active := false, napi_tsfn := false,
        native := native_stop os_at_least_12_3 st.native })

/-- MacOSDisplayServer.setStreamQuality composed with the
set_stream_quality_js wrapper: quality outside [0, 100] is rejected
before any native call; otherwise the native retune runs and the
wrapper reports true. -/
def setStreamQuality (os_at_least_12_3 : Bool) (st : SessionState) (q : Rat) :
    Bool × SessionState :=
  if q < 0 ∨ 100 < q then (false, st)
  else (true, { st with native := native_set_stream_quality os_at_least_12_3 st.native q })

/-- The frame rate held by the current stream configuration (0 when no
stream configuration exists). -/
def session_fps (st : SessionState) : Int :=
  (Option.map StreamConfig.fps st.native.stream_config).getD 0

/-- The idle session state: nothing streaming, nothing stored. -/
def idle_session : SessionState :=
  { ts_is_streaming := false, ts_has_callback := false,
    napi_callback_active := false, napi_tsfn := false,
    native := { is_streaming := false, active_stream := false, capture_queue := false,
                has_callback := false, stream_config := none } }

/-- An environment in which every external start step succeeds. -/
def all_ok_start_env : StartEnv :=
  { os_at_least_12_3 := true, permission_granted := true, shareable_content_ok := true,
    main_display_found := true, main_display_width := 1920, main_display_height := 1080,
    add_output_ok := true, start_capture_ok := true }

/-- The session state reached by a successful start at 1920 by 1080 from
idle: actively streaming with the default 30 fps configuration. -/
def active_session : SessionState :=
  (startDesktopStream all_ok_start_env idle_session 1920 1080).2

/-! ## Capture-once pipeline (macos_draw::capture_desktop and helpers) -/

/-- Environment for one capture-once call: the permission and macOS
version gates, the outcome of each ScreenCaptureKit step (each timeout
or error collapses to one failed flag, matching the one fallback branch
it selects), the captured image geometry and pixel content, the
CoreGraphics main-display bounds used by the fallback, and whether the
fallback body itself throws. -/
structure CaptureEnv where
  permission_granted : Bool
  os_at_least_12_3 : Bool
  shareable_content_ok : Bool
  main_display_found : Bool
  sc_display_width : Int
  sc_display_height : Int
  screenshot_ok : Bool
  image_width : Int
  image_height : Int
  color_space_ok : Bool
  bitmap_context_ok : Bool
  image_pixel : Nat → Nat
  cg_display_width : Int
  cg_display_height : Int
  fallback_exception : Bool

/-- A returned frame: pixel bytes with the width and height reported
alongside them. -/
structure CaptureResult where
  width : Int
  height : Int
  data : List Nat

/-- One RGBA pixel of the gradient placeholder produced by the fallback:
red is x*255/width, green is y*255/height, blue 128, alpha 255 (the
divisions are C truncating division on nonnegative operands, and the
uint8_t store is reduction mod 256). -/
def gradient_pixel (w h x y : Int) : List Nat :=
  [(x * 255 / w).toNat % 256, (y * 255 / h).toNat % 256, 128, 255]

/-- The full gradient placeholder buffer, row by row. -/
def gradient_buffer (w h : Int) : List Nat :=
  (List.range h.toNat).flatMap fun y =>
    (List.range w.toNat).flatMap fun x => gradient_pixel w h x y

/-- macos_draw::capture_desktop_fallback: reads the main display bounds
and builds the gradient placeholder at that size; if the body throws it
returns an 800 by 600 gray placeholder instead. -/
def capture_desktop_fallback (env : CaptureEnv) : CaptureResult :=
  if env.fallback_exception then
    { width := 800, height := 600, data := List.replicate (800 * 600 * 4) 128 }
  else
    { width := env.cg_display_width, height := env.cg_display_height,
      data := gradient_buffer env.cg_display_width env.cg_display_height }

/-- macos_draw::cgimage_to_buffer: a null image or non-positive image
dimensions yield an 800 by 600 zero buffer; a failed color space or
bitmap context yields a zero buffer at the image size; otherwise the
buffer holds the pixels drawn by CGContextDrawImage. -/
def cgimage_to_buffer (env : CaptureEnv) (image_ok : Bool) : Int × Int × List Nat :=
  if image_ok = false then (800, 600, List.replicate (800 * 600 * 4) 0)
  else if env.image_width ≤ 0 ∨ env.image_height ≤ 0 then
    (800, 600, List.replicate (800 * 600 * 4) 0)
  else if env.color_space_ok = false then
    (env.image_width, env.image_height,
      List.replicate (env.image_width.toNat * env.image_height.toNat * 4) 0)
  else if env.bitmap_context_ok = false then
    (env.image_width, env.image_height,
      List.replicate (env.image_width.toNat * env.image_height.toNat * 4) 0)
  else
    (env.image_width, env.image_height,
      (List.range (env.image_width.toNat * env.image_height.toNat * 4)).map env.image_pixel)

/-- macos_draw::capture_desktop_screencapturekit: every failing external
step (permission, version gate, shareable content, main display lookup,
screenshot, empty conversion result) routes to the fallback; success
returns the converted image buffer with the image dimensions. -/
def capture_desktop_screencapturekit (env : CaptureEnv) : CaptureResult :=
  if env.permission_granted = false then capture_desktop_fallback env
  else if env.os_at_least_12_3 = false then capture_desktop_fallback env
  else if env.shareable_content_ok = false then capture_desktop_fallback env
  else if env.main_display_found = false then capture_desktop_fallback env
  else if env.screenshot_ok = false then capture_desktop_fallback env
  else if (cgimage_to_buffer env true).2.2 = [] then capture_desktop_fallback env
  else
    { width := (cgimage_to_buffer env true).1,
      height := (cgimage_to_buffer env true).2.1,
      data := (cgimage_to_buffer env true).2.2 }

/-- macos_draw::capture_desktop simply runs the ScreenCaptureKit path,
which carries its own fallback. -/
def capture_desktop (env : CaptureEnv) : CaptureResult :=
  capture_desktop_screencapturekit env

/-- A concrete capture environment in which permission is denied and the
main display reports 1440 by 900. -/
def denied_capture_env : CaptureEnv :=
  { permission_granted := false, os_at_least_12_3 := true, shareable_content_ok := true,
    main_display_found := true, sc_display_width := 1440, sc_display_height := 900,
    screenshot_ok := true, image_width := 1440, image_height := 900,
    color_space_ok := true, bitmap_context_ok := true, image_pixel := fun _ => 0,
    cg_display_width := 1440, cg_display_height := 900, fallback_exception := false }

/-- A registry state in which only the display singleton exists, used to
evaluate the registry operations at a concrete input. -/
def seeded_registry : RegistryState :=
  { slots := fun sl => if sl = Registry_Slot.display then some 5 else none,
    nextObj := 6 }

/-! ## Helper lemmas -/

theorem length_flatMap_const {α β : Type} (l : List α) (f : α → List β) (c : Nat)
    (h : ∀ a, (f a).length = c) : (l.flatMap f).length = l.length * c := by
  induction l with
  | nil => simp
  | cons a t ih => simp [h, ih, Nat.succ_mul, Nat.add_comm]

theorem gradient_buffer_length (w h : Int) :
    (gradient_buffer w h).length = w.toNat * h.toNat * 4 := by
  unfold gradient_buffer
  rw [length_flatMap_const _ _ (w.toNat * 4)]
  · rw [List.length_range]; ring
  · intro y
    rw [length_flatMap_const _ _ 4]
    · rw [List.length_range]
    · intro x; rfl

theorem cgimage_to_buffer_props (env : CaptureEnv) :
    0 < (cgimage_to_buffer env true).1 ∧ 0 < (cgimage_to_buffer env true).2.1 ∧
    (cgimage_to_buffer env true).2.2.length =
      (cgimage_to_buffer env true).1.toNat * (cgimage_to_buffer env true).2.1.toNat * 4 := by
  unfold cgimage_to_buffer
  rw [if_neg (by decide : ¬ (true = false))]
  split_ifs with h1 h2 h3
  · exact ⟨by decide, by decide, by dsimp only; rw [List.length_replicate]; decide⟩
  · push_neg at h1
    exact ⟨by dsimp only; omega, by dsimp only; omega,
      by dsimp only; rw [List.length_replicate]⟩
  · push_neg at h1
    exact ⟨by dsimp only; omega, by dsimp only; omega,
      by dsimp only; rw [List.length_replicate]⟩
  · push_neg at h1
    exact ⟨by dsimp only; omega, by dsimp only; omega,
      by dsimp only; rw [List.length_map, List.length_range]⟩

/-! ## Claim theorems -/

/-- Claim C1, counterexample: with every dimension check failing
(px_width = px_height = 0, and separately cell_width = 0), the frame
composer returns the fixed string "Error: Invalid input parameters",
which is not the empty string the claim requires. -/
theorem convert_desktop_zero_geometry_counterexample :
    convert_desktop_to_terminal trivial_chafa_env (some [0, 0, 0, 255]) 0 0 80 24 =
      "Error: Invalid input parameters" ∧
    convert_desktop_to_terminal trivial_chafa_env (some [0, 0, 0, 255]) 100 100 0 24 =
      "Error: Invalid input parameters" ∧
    "Error: Invalid input parameters" ≠ "" := by
  refine ⟨by decide, by decide, by decide⟩

/-- Claim C1, amended: for every pixel buffer and every geometry in which
px_width, px_height, cell_width or cell_height is non-positive, the
frame composer returns the fixed non-empty string
"Error: Invalid input parameters" (it does not throw and never reaches
the conversion pipeline), rather than an empty result. -/
theorem convert_desktop_nonpositive_geometry_error_string (env : ChafaEnv)
    (desktop_data : Option (List Nat)) (dw dh tw th : Int)
    (h : dw ≤ 0 ∨ dh ≤ 0 ∨ tw ≤ 0 ∨ th ≤ 0) :
    convert_desktop_to_terminal env desktop_data dw dh tw th =
      "Error: Invalid input parameters" := by
  unfold convert_desktop_to_terminal
  rcases h with h | h | h | h <;> simp [h]

/-- Claim C1, witness for the amended theorem at a concrete input. -/
theorem convert_desktop_nonpositive_geometry_error_string_witness :
    convert_desktop_to_terminal trivial_chafa_env (some [255]) 0 0 80 24 =
      "Error: Invalid input parameters" :=
  convert_desktop_nonpositive_geometry_error_string trivial_chafa_env (some [255]) 0 0 80 24
    (Or.inl (by norm_num))

/-- Claim C2: a second lookup of any interface id returns the same
instance and leaves the registry unchanged (the first lookup constructs
the singleton lazily if needed), and no lookup ever replaces an already
constructed instance of any interface, so at most one instance per
interface is constructed over the process lifetime. -/
theorem globals_get_singleton_idempotent (st : RegistryState) (g : Global_Ids) :
    globals_get (globals_get st g).2 g = globals_get st g ∧
    ∀ sl x, st.slots sl = some x → (globals_get st g).2.slots sl = some x := by
  constructor
  · unfold globals_get
    cases h : st.slots (backing_slot g) with
    | some x => simp [h]
    | none => simp [h, Function.update_same]
  · intro sl x hx
    unfold globals_get
    cases h : st.slots (backing_slot g) with
    | some y => simpa [h] using hx
    | none =>
      simp only [h]
      by_cases hsl : sl = backing_slot g
      · subst hsl; rw [hx] at h; exact absurd h (by simp)
      · simpa [Function.update_noteq hsl] using hx

/-- Claim C2, witness: the second wl_seat lookup equals the first and the
already-present display instance is untouched. -/
theorem globals_get_singleton_idempotent_witness :
    globals_get (globals_get seeded_registry Global_Ids.wl_seat).2 Global_Ids.wl_seat =
      globals_get seeded_registry Global_Ids.wl_seat ∧
    (globals_get seeded_registry Global_Ids.wl_seat).2.slots Registry_Slot.display = some 5 :=
  ⟨(globals_get_singleton_idempotent seeded_registry Global_Ids.wl_seat).1,
   (globals_get_singleton_idempotent seeded_registry Global_Ids.wl_seat).2
     Registry_Slot.display 5 (by decide)⟩

/-- Claim C10: looking up wl_data_device in the globals object performs
exactly the wl_seat lookup, so both return the same instance (and share
the same lazy construction). -/
theorem wl_data_device_aliases_wl_seat (st : RegistryState) :
    globals_get st Global_Ids.wl_data_device = globals_get st Global_Ids.wl_seat := rfl

/-- Claim C8: the advertised catalog is a fixed constant, identical for
every registry state, its read leaves the registry unchanged (so no
singleton is constructed), and its entries carry exactly the names,
numeric ids and versions written in the source. -/
theorem advertised_globals_constant_catalog (st st2 : RegistryState) :
    (list_advertised st).1 = (list_advertised st2).1 ∧
    (list_advertised st).2 = st ∧
    (list_advertised st).1.map AdvertisedGlobal.name =
      ["wl_compositor", "wl_subcompositor", "wl_output", "wl_seat", "wl_shm",
       "xdg_wm_base", "wl_data_device_manager", "zxdg_decoration_manager_v1",
       "zwp_xwayland_keyboard_grab_manager_v1", "xwayland_shell_v1"] ∧
    (list_advertised st).1.map AdvertisedGlobal.id =
      [0xff00000, 0xff00001, 0xff00002, 0xff00003, 0xff00004,
       0xff00005, 0xff00006, 0xff0000d, 0xff00009, 0xff0000a] ∧
    (list_advertised st).1.map AdvertisedGlobal.version = [6, 1, 5, 10, 2, 6, 3, 1, 1, 1] :=
  ⟨rfl, rfl, rfl, rfl, rfl⟩

/-- Claim C7: during every wl_output bind the handler sends geometry
strictly before mode, mode strictly before done, all three events are
present, and done terminates the sequence emitted before on_bind
returns. -/
theorem wl_output_on_bind_event_order (version : Int) :
    (wl_output_on_bind version).indexOf Wl_Output_Event.geometry <
      (wl_output_on_bind version).indexOf Wl_Output_Event.mode ∧
    (wl_output_on_bind version).indexOf Wl_Output_Event.mode <
      (wl_output_on_bind version).indexOf Wl_Output_Event.done ∧
    Wl_Output_Event.geometry ∈ wl_output_on_bind version ∧
    Wl_Output_Event.mode ∈ wl_output_on_bind version ∧
    Wl_Output_Event.done ∈ wl_output_on_bind version ∧
    (wl_output_on_bind version).getLast? = some Wl_Output_Event.done := by
  unfold wl_output_on_bind
  refine ⟨?_, ?_, ?_, ?_, ?_, ?_⟩ <;> decide

/-- Claim C3: a start while the session is already streaming is rejected
with false and leaves the whole session state (TypeScript layer, N-API
wrapper, native layer) untouched; the native guard does the same at its
own level.  Since the state is one process-wide record, at most one
session is ever active. -/
theorem start_desktop_stream_rejected_when_active (env : StartEnv) (st : SessionState)
    (width height : Int) :
    (st.ts_is_streaming = true → startDesktopStream env st width height = (false, st)) ∧
    (st.native.is_streaming = true →
      native_start env st.native width height = (false, st.native)) := by
  constructor
  · intro h
    unfold startDesktopStream
    rw [if_pos h]
  · intro h
    unfold native_start
    rw [if_pos h]

/-- Claim C3, witness: a second start on the actively streaming session
returns false and changes nothing, at both layers. -/
theorem start_desktop_stream_rejected_when_active_witness :
    startDesktopStream all_ok_start_env active_session 1920 1080 = (false, active_session) ∧
    native_start all_ok_start_env active_session.native 1920 1080 =
      (false, active_session.native) :=
  ⟨(start_desktop_stream_rejected_when_active all_ok_start_env active_session 1920 1080).1
      (by decide),
   (start_desktop_stream_rejected_when_active all_ok_start_env active_session 1920 1080).2
      (by decide)⟩

/-- Claim C4: a stop while the session is idle returns false, is not an
error, and leaves the session state unchanged; the native stop is
likewise a no-op when nothing is streaming. -/
theorem stop_desktop_stream_idle_noop (os_at_least_12_3 : Bool) (st : SessionState) :
    (st.ts_is_streaming = false → stopDesktopStream os_at_least_12_3 st = (false, st)) ∧
    (st.native.is_streaming = false →
      native_stop os_at_least_12_3 st.native = st.native) := by
  constructor
  · intro h
    unfold stopDesktopStream
    rw [if_pos h]
  · intro h
    unfold native_stop
    rw [if_pos (Or.inl h)]

/-- Claim C4, witness: stopping the idle session returns false and keeps
the state, at both layers. -/
theorem stop_desktop_stream_idle_noop_witness :
    stopDesktopStream true idle_session = (false, idle_session) ∧
    native_stop true idle_session.native = idle_session.native :=
  ⟨(stop_desktop_stream_idle_noop true idle_session).1 rfl,
   (stop_desktop_stream_idle_noop true idle_session).2 rfl⟩

/-- Claim C5: any quality outside [0, 100] is rejected with false before
the native layer is reached, so the active quality and frame-rate
configuration are left exactly as they were. -/
theorem set_stream_quality_out_of_range_rejected (os_at_least_12_3 : Bool)
    (st : SessionState) (q : Rat) (h : q < 0 ∨ 100 < q) :
    setStreamQuality os_at_least_12_3 st q = (false, st) := by
  unfold setStreamQuality
  rw [if_pos h]

/-- Claim C5, witness: quality 150 and quality -1 are both rejected on the
active session without altering it. -/
theorem set_stream_quality_out_of_range_rejected_witness :
    setStreamQuality true active_session 150 = (false, active_session) ∧
    setStreamQuality true active_session (-1) = (false, active_session) :=
  ⟨set_stream_quality_out_of_range_rejected true active_session 150
      (Or.inr (by norm_num)),
   set_stream_quality_out_of_range_rejected true active_session (-1)
      (Or.inl (by norm_num))⟩

theorem active_session_cfg :
    active_session.native.stream_config =
      some { width := 1920, height := 1080, fps := 30 } := rfl

theorem session_fps_active : session_fps active_session = 30 := rfl

theorem set_quality_zero_noop :
    (setStreamQuality true active_session 0).2 = active_session := by
  unfold setStreamQuality native_set_stream_quality
  rw [if_neg (by norm_num : ¬ ((0:Rat) < 0 ∨ 100 < (0:Rat))),
    if_neg (by decide : ¬ (true = false)), active_session_cfg]
  dsimp only
  rw [if_neg (by norm_num : ¬ ((1/10 : Rat) ≤ 0 ∧ (0:Rat) ≤ 1))]

theorem set_quality_half_fps :
    session_fps (setStreamQuality true active_session (1/2)).2 = 16 := by
  unfold setStreamQuality native_set_stream_quality
  rw [if_neg (by norm_num : ¬ ((1/2:Rat) < 0 ∨ 100 < (1/2:Rat))),
    if_neg (by decide : ¬ (true = false)), active_session_cfg]
  dsimp only
  rw [if_pos (by norm_num : (1/10 : Rat) ≤ 1/2 ∧ (1/2:Rat) ≤ 1)]
  unfold session_fps quality_to_fps
  dsimp only
  norm_num

/-- Claim C6, counterexample: on the active session started with the
default 30 fps configuration, the legal qualities 0 < 1/2 (both inside
[0, 100]) give frame rates 30 and 16 respectively: the rate configured
for the higher quality is strictly below the rate configured for the
lower one, because the native layer only applies qualities in the
float range [0.1, 1.0] and silently ignores the rest. -/
theorem set_stream_quality_monotone_counterexample :
    (0 : Rat) ≤ 0 ∧ (0 : Rat) < 1/2 ∧ (1/2 : Rat) ≤ 100 ∧
    session_fps (setStreamQuality true active_session 0).2 = 30 ∧
    session_fps (setStreamQuality true active_session (1/2)).2 = 16 ∧
    ¬ (session_fps (setStreamQuality true active_session 0).2 ≤
        session_fps (setStreamQuality true active_session (1/2)).2) := by
  have e0 : session_fps (setStreamQuality true active_session 0).2 = 30 := by
    rw [set_quality_zero_noop, session_fps_active]
  refine ⟨le_refl 0, by norm_num, by norm_num, e0, set_quality_half_fps, ?_⟩
  rw [e0, set_quality_half_fps]
  norm_num

/-- Claim C6, amended: the quality-to-frame-rate map is monotone
nondecreasing on the range the native layer actually applies, namely
qualities in [0.1, 1.0] (outside it the retune is silently ignored and
the previous rate persists), and no legal quality in [0, 100] can ever
push the configured frame rate above the 30 fps maximum the stream is
started with. -/
theorem set_stream_quality_monotone_on_applied_range (os_at_least_12_3 : Bool)
    (st : SessionState) (q1 q2 : Rat)
    (h1 : (1/10 : Rat) ≤ q1) (h12 : q1 < q2) (h2 : q2 ≤ 1) :
    session_fps (setStreamQuality os_at_least_12_3 st q1).2 ≤
      session_fps (setStreamQuality os_at_least_12_3 st q2).2 ∧
    ∀ q : Rat, session_fps st ≤ 30 →
      session_fps (setStreamQuality os_at_least_12_3 st q).2 ≤ 30 := by
  have hg1 : ¬ (q1 < 0 ∨ 100 < q1) := by
    push_neg
    constructor <;> linarith
  have hg2 : ¬ (q2 < 0 ∨ 100 < q2) := by
    push_neg
    constructor <;> linarith
  have hq1 : (1/10 : Rat) ≤ q1 ∧ q1 ≤ 1 := ⟨h1, by linarith⟩
  have hq2 : (1/10 : Rat) ≤ q2 ∧ q2 ≤ 1 := ⟨by linarith, h2⟩
  constructor
  · unfold setStreamQuality
    rw [if_neg hg1, if_neg hg2]
    dsimp only
    unfold native_set_stream_quality
    cases os_at_least_12_3 with
    | false => exact le_refl _
    | true =>
      simp only [if_neg (by decide : ¬ (true = false))]
      cases hc : st.native.stream_config with
      | none => exact le_refl _
      | some cfg =>
        dsimp only
        rw [if_pos hq1, if_pos hq2]
        simp only [session_fps, Option.map_some', Option.getD_some]
        unfold quality_to_fps
        exact Int.floor_le_floor (by linarith)
  · intro q hfps
    unfold setStreamQuality
    by_cases hgq : q < 0 ∨ 100 < q
    · rw [if_pos hgq]
      exact hfps
    · rw [if_neg hgq]
      dsimp only
      unfold native_set_stream_quality
      cases os_at_least_12_3 with
      | false => exact hfps
      | true =>
        rw [if_neg (by decide : ¬ (true = false))]
        cases hc : st.native.stream_config with
        | none =>
          simp [session_fps, hc]
        | some cfg =>
          dsimp only
          by_cases hq : (1/10 : Rat) ≤ q ∧ q ≤ 1
          · rw [if_pos hq]
            simp only [session_fps, Option.map_some', Option.getD_some]
            unfold quality_to_fps
            have h30 : (3 + q * 27 : Rat) ≤ 30 := by linarith [hq.2]
            calc Int.floor ((3:Rat) + q * 27) ≤ Int.floor ((30:Rat)) :=
                  Int.floor_le_floor h30
              _ = 30 := by norm_num
          · rw [if_neg hq]
            simpa [session_fps, hc] using hfps

/-- Claim C6, witness for the amended theorem: qualities 1/4 and 3/4 on
the active session give nondecreasing rates, and quality 50 keeps the
rate within the 30 fps maximum. -/
theorem set_stream_quality_monotone_on_applied_range_witness :
    session_fps (setStreamQuality true active_session (1/4)).2 ≤
      session_fps (setStreamQuality true active_session (3/4)).2 ∧
    session_fps (setStreamQuality true active_session 50).2 ≤ 30 := by
  have h := set_stream_quality_monotone_on_applied_range true active_session (1/4) (3/4)
    (by norm_num) (by norm_num) (by norm_num)
  exact ⟨h.1, h.2 50 (by rw [session_fps_active])⟩

/-- Claim C9: capture_desktop always returns a pixel buffer whose byte
length is width times height times 4 with positive width and height
(assuming only that the main display has positive bounds), and every
enumerated backend failure (permission denied, version gate, timeout or
error fetching shareable content, missing main display, screenshot
failure) yields exactly the synthetic fallback placeholder instead of
an error. -/
theorem capture_desktop_positive_and_fallback (env : CaptureEnv)
    (hw : 0 < env.cg_display_width) (hh : 0 < env.cg_display_height) :
    0 < (capture_desktop env).width ∧ 0 < (capture_desktop env).height ∧
    (capture_desktop env).data.length =
      (capture_desktop env).width.toNat * (capture_desktop env).height.toNat * 4 ∧
    ((env.permission_granted = false ∨ env.os_at_least_12_3 = false ∨
      env.shareable_content_ok = false ∨ env.main_display_found = false ∨
      env.screenshot_ok = false) →
      capture_desktop env = capture_desktop_fallback env) := by
  have hfb : 0 < (capture_desktop_fallback env).width ∧
      0 < (capture_desktop_fallback env).height ∧
      (capture_desktop_fallback env).data.length =
        (capture_desktop_fallback env).width.toNat *
          (capture_desktop_fallback env).height.toNat * 4 := by
    unfold capture_desktop_fallback
    by_cases he : env.fallback_exception
    · rw [if_pos he]
      refine ⟨by norm_num, by norm_num, ?_⟩
      dsimp only
      rw [List.length_replicate]
      decide
    · rw [if_neg he]
      refine ⟨hw, hh, ?_⟩
      dsimp only
      rw [gradient_buffer_length]
  have hcg := cgimage_to_buffer_props env
  unfold capture_desktop capture_desktop_screencapturekit
  split_ifs with g1 g2 g3 g4 g5 g6
  · exact ⟨hfb.1, hfb.2.1, hfb.2.2, fun _ => rfl⟩
  · exact ⟨hfb.1, hfb.2.1, hfb.2.2, fun _ => rfl⟩
  · exact ⟨hfb.1, hfb.2.1, hfb.2.2, fun _ => rfl⟩
  · exact ⟨hfb.1, hfb.2.1, hfb.2.2, fun _ => rfl⟩
  · exact ⟨hfb.1, hfb.2.1, hfb.2.2, fun _ => rfl⟩
  · exact ⟨hfb.1, hfb.2.1, hfb.2.2, fun _ => rfl⟩
  · refine ⟨hcg.1, hcg.2.1, hcg.2.2, ?_⟩
    intro hfail
    rcases hfail with h | h | h | h | h <;> simp_all

/-- Claim C9, witness: with screen-recording permission denied the call
still returns the positive-sized fallback placeholder. -/
theorem capture_desktop_positive_and_fallback_witness :
    0 < (capture_desktop denied_capture_env).width ∧
    0 < (capture_desktop denied_capture_env).height ∧
    (capture_desktop denied_capture_env).data.length =
      (capture_desktop denied_capture_env).width.toNat *
        (capture_desktop denied_capture_env).height.toNat * 4 ∧
    capture_desktop denied_capture_env = capture_desktop_fallback denied_capture_env := by
  have h := capture_desktop_positive_and_fallback denied_capture_env
    (by norm_num [denied_capture_env]) (by norm_num [denied_capture_env])
  exact ⟨h.1, h.2.1, h.2.2.1, h.2.2.2 (Or.inl rfl)⟩
